import Mathlib

/-!
Verification of the release orchestration script (scripts/release.py).

The script is modelled as pure Lean functions: filesystem state, HTTP
responses and subprocess outputs are passed explicitly, and the effectful
steps of the orchestrator are recorded as a trace of events.  Python string
primitives (keepends line splitting, substring membership, strip) are
modelled character-list by character-list.
-/

namespace Release

/-- Python substring prefix test on character lists: the first list is the
pattern, the second the candidate text start. -/
def beginsWith : List Char → List Char → Bool
  | [], _ => true
  | _ :: _, [] => false
  | p :: ps, c :: cs => p == c && beginsWith ps cs

/-- Python `pat in s` membership on character lists: the pattern occurs as a
contiguous substring somewhere in the text. -/
def hasSubstr (pat : List Char) : List Char → Bool
  | [] => beginsWith pat []
  | c :: cs => beginsWith pat (c :: cs) || hasSubstr pat cs

/-- Python `pat in s` for strings. -/
def strContains (s pat : String) : Bool :=
  hasSubstr pat.data s.data

/-- Python text-file line iteration (keepends): split after each newline
character, each line retaining its trailing newline; a final segment without
a newline is kept as a last line; an empty text yields no lines. -/
def splitKeepNl : List Char → List (List Char)
  | [] => []
  | c :: cs =>
    if c = '\n' then [c] :: splitKeepNl cs
    else
      match splitKeepNl cs with
      | [] => [[c]]
      | l :: ls => (c :: l) :: ls

/-- Lines of a file content the way Python `for line in open(path)` yields
them. -/
def pyLines (s : String) : List String :=
  (splitKeepNl s.data).map String.mk

/-- Remove one trailing newline from a line if present (the spec's notion of
trimming a line at its trailing newline only). -/
def trimTrailingNewline (line : String) : String :=
  match line.data.getLast? with
  | some c => if c = '\n' then String.mk line.data.dropLast else line
  | none => line

/-- Characters Python `str.strip()` removes. -/
def isPyWhitespace (c : Char) : Bool :=
  c == ' ' || c == '\t' || c == '\n' || c == '\r' || c == '\x0b' || c == '\x0c'

/-- Python `str.strip()`: drop whitespace from both ends. -/
def pyStrip (s : String) : String :=
  String.mk (((s.data.dropWhile isPyWhitespace).reverse.dropWhile isPyWhitespace).reverse)

/-- Drop leading slash characters, as Python `lstrip("/")`. -/
def dropSlashes : List Char → List Char
  | '/' :: cs => dropSlashes cs
  | cs => cs

/-- Python `s.lstrip("/")`. -/
def lstripSlash (s : String) : String :=
  String.mk (dropSlashes s.data)

/-- Python `s.rstrip("/")`. -/
def rstripSlash (s : String) : String :=
  String.mk (dropSlashes s.data.reverse).reverse

/-- Exceptions of the script: `user` is the script's own UserError class,
`fault` is any other raised error (KeyError, subprocess faults, ...). -/
inductive Err where
  | user (msg : String)
  | fault (msg : String)
deriving DecidableEq, Repr

/-- Travis.BASE_URL. -/
def BASE_URL : String := "https://api.travis-ci.org"

/-- Travis.url_for: base with trailing slashes stripped, a slash, and the uri
with leading slashes stripped. -/
def url_for (uri : String) : String :=
  rstripSlash BASE_URL ++ "/" ++ lstripSlash uri

/-- The URL Travis.get_branch actually requests for a given branch argument:
the uri passed to url_for is the hard-coded repository path ending in the
hard-coded branch segment wip-zsolt. -/
def get_branch_url (_branch : String) : String :=
  url_for ("repos/csernazs/pytest-httpserver/branches/wip-zsolt")

/-- Modelled from the spec: the URL the spec says get_branch requests,
`{base}/repos/{owner}/{repo}/branches/{branch}` with the branch argument
substituted into the path. -/
def claimed_branch_url (branch : String) : String :=
  "https://api.travis-ci.org/repos/csernazs/pytest-httpserver/branches/" ++ branch

/-- The fields of the parsed JSON body that the caller reads:
resp["commit"]["sha"] and resp["branch"]["state"]. -/
structure TravisResponse where
  commit_sha : String
  branch_state : String
deriving DecidableEq, Repr

/-- Travis.get_branch: fetch and parse the JSON body of the request URL.
The HTTP layer is an explicit function from URL to parsed response. -/
def get_branch (fetch : String → TravisResponse) (branch : String) : TravisResponse :=
  fetch (get_branch_url branch)

/-- An INI file as configparser sees it: sections with key/value pairs. -/
structure IniFile where
  sections : List (String × List (String × String))
deriving DecidableEq, Repr

/-- Dictionary-style section lookup, config[name]. -/
def lookupSection (ini : IniFile) (name : String) : Option (List (String × String)) :=
  (ini.sections.find? (fun p => p.fst == name)).map (·.snd)

/-- Dictionary-style key lookup inside a section. -/
def lookupKey (kvs : List (String × String)) (key : String) : Option String :=
  (kvs.find? (fun p => p.fst == key)).map (·.snd)

/-- configparser.ConfigParser().read(path): a missing file is silently
ignored, leaving an empty parser; otherwise the parsed file. -/
def config_read (file : Option IniFile) : IniFile :=
  match file with
  | none => { sections := [] }
  | some ini => ini

/-- BumpVersion.get_current_version: config["bumpversion"]["current_version"].
A missing section or key raises KeyError, which is not a UserError. -/
def get_current_version (file : Option IniFile) : Except Err String :=
  match lookupSection (config_read file) ("bumpversion") with
  | none => Except.error (Err.fault ("KeyError: bumpversion"))
  | some kvs =>
    match lookupKey kvs ("current_version") with
    | none => Except.error (Err.fault ("KeyError: current_version"))
    | some v => Except.ok v

/-- An argument passed to run_in_workspace: either already a string or a
Path that gets stringified. -/
inductive Arg where
  | str (s : String)
  | path (p : String)
deriving DecidableEq, Repr

/-- Stringification of run_in_workspace arguments. -/
def argToString : Arg → String
  | Arg.str s => s
  | Arg.path p => p

/-- A subprocess invocation: the argv it receives and the working directory
it runs in. -/
structure ProcCall where
  argv : List String
  cwd : String
deriving DecidableEq, Repr

/-- Application.run_in_workspace: stringify every argument and run the
command with cwd set to the workspace directory. -/
def run_in_workspace (work_dir : String) (args : List Arg) : ProcCall :=
  { argv := args.map argToString, cwd := work_dir }

/-- The inputs parse_args reacts to: the parsed CLI options plus the
filesystem facts it can observe (whether mkdir on the given work dir raises
FileExistsError) and the name mkdtemp would return. -/
structure ParseArgsInput where
  remote : String
  branch : String
  work_dir : Option String
  debug : Bool
  release_type : String
  temp_dir : String
  dir_exists : String → Bool

/-- What parse_args produces besides the echoed CLI options: the workspace
path actually used and whether a removal of it was registered with atexit. -/
structure ParseResult where
  work_dir : String
  cleanup_registered : Bool
deriving DecidableEq, Repr

/-- Application.parse_args, workspace-directory part: with no work dir a
fresh temp dir is made and, unless debug, registered for removal at exit;
with a given work dir, mkdir is attempted and a FileExistsError raises
UserError unless debug. -/
def parse_args (inp : ParseArgsInput) : Except String ParseResult :=
  match inp.work_dir with
  | none =>
    Except.ok { work_dir := inp.temp_dir, cleanup_registered := !inp.debug }
  | some wd =>
    if inp.dir_exists wd then
      if !inp.debug then
        Except.error (("Directory already exists: ") ++ wd)
      else
        Except.ok { work_dir := wd, cleanup_registered := false }
    else
      Except.ok { work_dir := wd, cleanup_registered := false }

/-- The workspace directory a successful parse_args run settles on. -/
def effWorkDir (inp : ParseArgsInput) : String :=
  match inp.work_dir with
  | none => inp.temp_dir
  | some wd => wd

/-- Application.check_ci_build: strip the stdout of git rev-parse, fetch the
branch from Travis, and require the fetched sha to equal the local commit id
and the fetched state to equal "passed". -/
def check_ci_build (fetch : String → TravisResponse) (branch : String)
    (rev_parse_out : String) : Except String Unit :=
  let commit_id := pyStrip rev_parse_out
  let resp := get_branch fetch branch
  if resp.commit_sha ≠ commit_id then
    Except.error ("ci-check: latest build on travis does not match with current HEAD")
  else if resp.branch_state ≠ "passed" then
    Except.error (("ci-check: latest build status is '") ++ resp.branch_state ++ "'")
  else
    Except.ok ()

/-- The documentation artifacts check_doc inspects: existence of the html
build directory and its two pages, and the text of changes.html. -/
structure DocFS where
  html_dir_exists : Bool
  index_html_exists : Bool
  changes_html_exists : Bool
  changes_html : String
deriving DecidableEq, Repr

/-- Application.check_doc, after the current version has been read: verify
the build directory and both pages exist and changes.html contains the
title substring " {version} documentation". -/
def check_doc (fs : DocFS) (version : String) : Except String Unit :=
  if !fs.html_dir_exists then
    Except.error ("check-doc: No documentation build found")
  else if !fs.index_html_exists then
    Except.error ("check-doc: No documentation index.html found")
  else if !fs.changes_html_exists then
    Except.error ("check-doc: No documentation changes.html found")
  else
    let version_string := (" ") ++ version ++ " documentation"
    if strContains fs.changes_html version_string then
      Except.ok ()
    else
      Except.error (("check-doc: wrong title, title missing: '") ++ version_string ++ "'")

/-- The loop of Application.check_changelog: return on the first line equal
to version followed by a newline, raise after the last line otherwise. -/
def check_changelog_loop (version : String) : List String → Except String Unit
  | [] => Except.error (("check-changelog: version missing from CHANGES.rst: ") ++ version)
  | line :: rest =>
    if line = version ++ "\n" then Except.ok ()
    else check_changelog_loop version rest

/-- Application.check_changelog, after the current version has been read:
iterate the lines of CHANGES.rst looking for version followed by newline. -/
def check_changelog (version : String) (changes_rst : String) : Except String Unit :=
  check_changelog_loop version (pyLines changes_rst)

/-- Modelled from the spec: a line of the changelog matches the version when
the line, after trimming only its trailing newline, equals the version. -/
def spec_changelog_match (version content : String) : Bool :=
  (pyLines content).any (fun l => trimTrailingNewline l == version)

/-- check_doc as main invokes it: read the current version from the
bumpversion config first, then check the artifacts; a config fault
propagates, a check failure is a UserError. -/
def check_doc_full (cfg : Option IniFile) (fs : DocFS) : Except Err Unit :=
  match get_current_version cfg with
  | Except.error e => Except.error e
  | Except.ok v =>
    match check_doc fs v with
    | Except.ok u => Except.ok u
    | Except.error m => Except.error (Err.user m)

/-- check_changelog as main invokes it: read the current version first, then
scan CHANGES.rst; a config fault propagates, a check failure is a UserError. -/
def check_changelog_full (cfg : Option IniFile) (changes_rst : String) : Except Err Unit :=
  match get_current_version cfg with
  | Except.error e => Except.error e
  | Except.ok v =>
    match check_changelog v changes_rst with
    | Except.ok u => Except.ok u
    | Except.error m => Except.error (Err.user m)

/-- The observable steps the orchestrator performs, in the order it performs
them: argument parsing, subprocess invocations, the two artifact checks, and
the (dead) CI build check. -/
inductive Event where
  | parseArgsEv
  | procEv (c : ProcCall)
  | checkDocEv
  | checkChangelogEv
  | checkCiEv
deriving DecidableEq, Repr

/-- Everything the script's run depends on: CLI and filesystem inputs for
parse_args, the bumpversion config file, the documentation artifacts, and
the changelog text. -/
structure Env where
  parse : ParseArgsInput
  cfg : Option IniFile
  docfs : DocFS
  changes_rst : String

/-- Application.main as a trace: parse arguments, then clone, make
pre-release, bumpversion, git show HEAD, make doc-clean, make doc, make
changes, check_doc, check_changelog.  The commented-out CI check emits no
event.  Each subprocess runs in the chosen workspace via run_in_workspace;
exit codes are not inspected, so subprocess steps always proceed. -/
def main (env : Env) : List Event × Except Err Unit :=
  match parse_args env.parse with
  | Except.error e => ([Event.parseArgsEv], Except.error (Err.user e))
  | Except.ok r =>
    let wd := r.work_dir
    let procs : List Event :=
      [Event.procEv (run_in_workspace wd
          [Arg.str ("git"), Arg.str ("clone"), Arg.str ("--branch"),
           Arg.str env.parse.branch, Arg.str env.parse.remote, Arg.path wd]),
       Event.procEv (run_in_workspace wd [Arg.str ("make"), Arg.str ("pre-release")]),
       Event.procEv (run_in_workspace wd
          [Arg.str (".venv/bin/bumpversion"), Arg.str env.parse.release_type]),
       Event.procEv (run_in_workspace wd
          [Arg.str ("git"), Arg.str ("--no-pager"), Arg.str ("show"), Arg.str ("HEAD")]),
       Event.procEv (run_in_workspace wd [Arg.str ("make"), Arg.str ("doc-clean")]),
       Event.procEv (run_in_workspace wd [Arg.str ("make"), Arg.str ("doc")]),
       Event.procEv (run_in_workspace wd [Arg.str ("make"), Arg.str ("changes")])]
    let pre := Event.parseArgsEv :: procs
    match check_doc_full env.cfg env.docfs with
    | Except.error e => (pre ++ [Event.checkDocEv], Except.error e)
    | Except.ok _ =>
      match check_changelog_full env.cfg env.changes_rst with
      | Except.error e =>
        (pre ++ [Event.checkDocEv, Event.checkChangelogEv], Except.error e)
      | Except.ok _ =>
        (pre ++ [Event.checkDocEv, Event.checkChangelogEv], Except.ok ())

/-- How the process ends: a clean exit with a code and the lines printed to
the standard error stream, or an uncaught fault. -/
inductive Outcome where
  | exited (code : Nat) (stderr_lines : List String)
  | uncaught (msg : String)
deriving DecidableEq, Repr

/-- The __main__ guard: run main inside a try block that catches exactly
UserError, prints its message to stderr and exits 1; a normal return exits 0;
every other exception escapes uncaught. -/
def top_level (r : Except Err Unit) : Outcome :=
  match r with
  | Except.ok _ => Outcome.exited 0 []
  | Except.error (Err.user m) => Outcome.exited 1 [m]
  | Except.error (Err.fault m) => Outcome.uncaught m

/-! ### Theorems -/

/-- The changelog loop answers exactly the question whether some line equals
the version followed by a newline. -/
theorem check_changelog_loop_eq (v : String) (ls : List String) :
    check_changelog_loop v ls =
      (if ls.any (fun l => l == v ++ "\n") then Except.ok ()
       else Except.error (("check-changelog: version missing from CHANGES.rst: ") ++ v)) := by
  induction ls with
  | nil => simp [check_changelog_loop]
  | cons l rest ih =>
    by_cases h : l = v ++ "\n"
    · simp [check_changelog_loop, h]
    · simp [check_changelog_loop, h, ih]

/-- C1 (counterexample): for version 1.2.3 and a CHANGES.rst whose single
final line is "1.2.3" without a trailing newline, the spec's trimmed-line
match holds, yet check_changelog raises the missing-version UserError. -/
theorem check_changelog_final_line_cex :
    spec_changelog_match ("1.2.3") ("1.2.3") = true ∧
    check_changelog ("1.2.3") ("1.2.3") =
      Except.error ("check-changelog: version missing from CHANGES.rst: 1.2.3") := by
  constructor
  · decide
  · rfl

/-- C1 (amended): check_changelog returns normally iff CHANGES.rst has a
line that is exactly the version followed by a newline character — a final
line equal to the version but lacking its trailing newline does not match —
and otherwise raises a UserError naming the missing version. -/
theorem check_changelog_characterization (v content : String) :
    check_changelog v content =
      (if (pyLines content).any (fun l => l == v ++ "\n") then Except.ok ()
       else Except.error (("check-changelog: version missing from CHANGES.rst: ") ++ v)) :=
  check_changelog_loop_eq v (pyLines content)

/-- C2: check_doc returns normally iff the html build directory exists, both
index.html and changes.html exist, and changes.html contains the substring
" {version} documentation" with its leading space; in particular for version
1.2.3 a changes.html reading "v1.2.3 documentation" makes it raise the
wrong-title UserError. -/
theorem check_doc_characterization :
    (∀ fs v, check_doc fs v = Except.ok () ↔
      (fs.html_dir_exists = true ∧ fs.index_html_exists = true ∧
       fs.changes_html_exists = true ∧
       strContains fs.changes_html ((" ") ++ v ++ " documentation") = true)) ∧
    check_doc ⟨true, true, true, "v1.2.3 documentation"⟩ ("1.2.3") =
      Except.error ("check-doc: wrong title, title missing: ' 1.2.3 documentation'") := by
  constructor
  · intro fs v
    obtain ⟨d, i, c, txt⟩ := fs
    cases d <;> cases i <;> cases c <;>
        cases h : strContains txt ((" ") ++ v ++ " documentation") <;>
      simp [check_doc, h]
  · rfl

/-- C4 (counterexample): for branch argument "master" the URL get_branch
requests is not the spec's {base}/repos/{owner}/{repo}/branches/master. -/
theorem get_branch_url_cex :
    get_branch_url ("master") ≠ claimed_branch_url ("master") := by
  decide

/-- C4 (amended): get_branch issues its GET to the fixed URL
{base}/repos/csernazs/pytest-httpserver/branches/wip-zsolt whatever branch
argument it receives — the argument is ignored — and returns the fetched
response, which exposes commit.sha and branch.state. -/
theorem get_branch_fixed_url (fetch : String → TravisResponse) (b : String) :
    get_branch fetch b =
      fetch ("https://api.travis-ci.org/repos/csernazs/pytest-httpserver/branches/wip-zsolt") :=
  rfl

/-- C7: check_ci_build returns normally iff the sha fetched from the CI API
equals the stripped stdout of git rev-parse and the fetched branch state is
the literal "passed"; it raises a UserError exactly when either fails. -/
theorem check_ci_build_characterization (fetch : String → TravisResponse) (b out : String) :
    (check_ci_build fetch b out = Except.ok () ↔
      ((get_branch fetch b).commit_sha = pyStrip out ∧
       (get_branch fetch b).branch_state = "passed")) ∧
    ((∃ m, check_ci_build fetch b out = Except.error m) ↔
      ¬((get_branch fetch b).commit_sha = pyStrip out ∧
        (get_branch fetch b).branch_state = "passed")) := by
  unfold check_ci_build
  by_cases h1 : (get_branch fetch b).commit_sha = pyStrip out <;>
    by_cases h2 : (get_branch fetch b).branch_state = "passed" <;>
    simp [h1, h2]

/-- A successful parse_args settles on the given work dir when one was
supplied and on the fresh temp dir otherwise. -/
theorem parse_args_work_dir_eq (inp : ParseArgsInput) (r : ParseResult)
    (h : parse_args inp = Except.ok r) : r.work_dir = effWorkDir inp := by
  unfold parse_args at h
  unfold effWorkDir
  cases hw : inp.work_dir with
  | none =>
    rw [hw] at h
    simp only [Except.ok.injEq] at h
    rw [← h]
  | some wd =>
    rw [hw] at h
    by_cases he : inp.dir_exists wd <;> by_cases hd : inp.debug <;>
      simp [he, hd] at h <;> rw [← h]

/-- C3: when the supplied work dir already exists, parse_args raises the
directory-already-exists UserError exactly when debug is false — and main
then stops with only the parse step performed, so no clone or other
subprocess ever runs — while with debug true the directory is accepted
silently with no cleanup registered. -/
theorem parse_args_existing_dir (env : Env) (wd : String)
    (hw : env.parse.work_dir = some wd) (he : env.parse.dir_exists wd = true) :
    (env.parse.debug = false →
      Release.main env = ([Event.parseArgsEv],
        Except.error (Err.user (("Directory already exists: ") ++ wd))) ∧
      (∀ c : ProcCall, Event.procEv c ∉ (Release.main env).1)) ∧
    (env.parse.debug = true →
      parse_args env.parse = Except.ok { work_dir := wd, cleanup_registered := false }) := by
  constructor
  · intro hd
    have hp : parse_args env.parse =
        Except.error (("Directory already exists: ") ++ wd) := by
      simp [parse_args, hw, he, hd]
    have hm : Release.main env = ([Event.parseArgsEv],
        Except.error (Err.user (("Directory already exists: ") ++ wd))) := by
      simp [Release.main, hp]
    refine ⟨hm, ?_⟩
    intro c
    rw [hm]
    simp
  · intro hd
    simp [parse_args, hw, he, hd]

/-- C3 witness: a concrete run with an existing work dir and debug off. -/
def c3Env : Env :=
  { parse := { remote := "origin", branch := "main", work_dir := some ("/tmp/ws"),
               debug := false, release_type := "patch", temp_dir := "/tmp/t",
               dir_exists := fun _ => true },
    cfg := none, docfs := ⟨false, false, false, ""⟩, changes_rst := "" }

/-- C3 (witness): on the concrete environment the run stops at parsing with
the directory-already-exists UserError. -/
theorem parse_args_existing_dir_witness :
    Release.main c3Env = ([Event.parseArgsEv],
      Except.error (Err.user ("Directory already exists: /tmp/ws"))) :=
  ((parse_args_existing_dir c3Env ("/tmp/ws") rfl rfl).1 rfl).1

/-- C5: the top-level guard turns a UserError escaping main into exit status
1 with the message on stderr, lets any non-UserError escape uncaught, and
exits 0 on a normal return. -/
theorem top_level_policy :
    (∀ env m, (Release.main env).2 = Except.error (Err.user m) →
      top_level (Release.main env).2 = Outcome.exited 1 [m]) ∧
    (∀ env m, (Release.main env).2 = Except.error (Err.fault m) →
      top_level (Release.main env).2 = Outcome.uncaught m) ∧
    (∀ env, (Release.main env).2 = Except.ok () →
      top_level (Release.main env).2 = Outcome.exited 0 []) := by
  refine ⟨?_, ?_, ?_⟩
  · intro env m h
    rw [h]
    rfl
  · intro env m h
    rw [h]
    rfl
  · intro env h
    rw [h]
    rfl

/-- C5 witness environment: a run whose changelog check fails with a UserError. -/
def c5Env : Env :=
  { parse := { remote := "origin", branch := "main", work_dir := none,
               debug := false, release_type := "patch",
               temp_dir := "/tmp/release_py_b", dir_exists := fun _ => false },
    cfg := some ⟨[("bumpversion", [("current_version", "1.2.3")])]⟩,
    docfs := ⟨true, true, true, "pytest-httpserver 1.2.3 documentation"⟩,
    changes_rst := "nothing here\n" }

/-- C5 (witness): on the concrete failing run the process exits 1 with the
UserError message printed to stderr. -/
theorem top_level_policy_witness :
    top_level (Release.main c5Env).2 =
      Outcome.exited 1 ["check-changelog: version missing from CHANGES.rst: 1.2.3"] :=
  top_level_policy.1 c5Env ("check-changelog: version missing from CHANGES.rst: 1.2.3") rfl

/-- C6: get_current_version returns the current_version value under the
bumpversion section when present, and raises a KeyError-style fault — never
a UserError, so it is not caught at the top level — when the file is absent
or the section or key is missing. -/
theorem get_current_version_spec :
    (∀ ini kvs v, lookupSection ini ("bumpversion") = some kvs →
      lookupKey kvs ("current_version") = some v →
      get_current_version (some ini) = Except.ok v) ∧
    (∃ m, get_current_version none = Except.error (Err.fault m)) ∧
    (∀ ini, lookupSection ini ("bumpversion") = none →
      ∃ m, get_current_version (some ini) = Except.error (Err.fault m)) ∧
    (∀ ini kvs, lookupSection ini ("bumpversion") = some kvs →
      lookupKey kvs ("current_version") = none →
      ∃ m, get_current_version (some ini) = Except.error (Err.fault m)) ∧
    (∀ file m, get_current_version file ≠ Except.error (Err.user m)) := by
  refine ⟨?_, ⟨_, rfl⟩, ?_, ?_, ?_⟩
  · intro ini kvs v hs hk
    simp [get_current_version, config_read, hs, hk]
  · intro ini hs
    refine ⟨("KeyError: bumpversion"), ?_⟩
    simp [get_current_version, config_read, hs]
  · intro ini kvs hs hk
    refine ⟨("KeyError: current_version"), ?_⟩
    simp [get_current_version, config_read, hs, hk]
  · intro file m
    unfold get_current_version
    cases hs : lookupSection (config_read file) ("bumpversion") with
    | none => simp
    | some kvs =>
      cases hk : lookupKey kvs ("current_version") <;> simp [hk]

/-- C6 (witness): on a concrete config file the version value is returned. -/
theorem get_current_version_spec_witness :
    get_current_version (some ⟨[("bumpversion", [("current_version", "1.2.3")])]⟩) =
      Except.ok ("1.2.3") :=
  get_current_version_spec.1 _ _ _ rfl rfl

/-- C8: with work-dir omitted, parse_args settles on the fresh temporary
directory, registers its recursive removal at process exit exactly when
debug is false, and every subprocess step of main runs with that temporary
directory as its working directory. -/
theorem temp_workspace (env : Env) (h : env.parse.work_dir = none) :
    parse_args env.parse =
      Except.ok { work_dir := env.parse.temp_dir,
                  cleanup_registered := !env.parse.debug } ∧
    (∀ c : ProcCall, Event.procEv c ∈ (Release.main env).1 →
      c.cwd = env.parse.temp_dir) := by
  have hp : parse_args env.parse =
      Except.ok { work_dir := env.parse.temp_dir,
                  cleanup_registered := !env.parse.debug } := by
    simp [parse_args, h]
  refine ⟨hp, ?_⟩
  intro c hc
  unfold Release.main at hc
  rw [hp] at hc
  simp only [run_in_workspace, argToString] at hc
  cases hd : check_doc_full env.cfg env.docfs with
  | error e =>
    rw [hd] at hc
    simp at hc
    rcases hc with h1 | h1 | h1 | h1 | h1 | h1 | h1 <;> rw [h1]
  | ok u =>
    rw [hd] at hc
    cases hcl : check_changelog_full env.cfg env.changes_rst with
    | error e =>
      rw [hcl] at hc
      simp at hc
      rcases hc with h1 | h1 | h1 | h1 | h1 | h1 | h1 <;> rw [h1]
    | ok u2 =>
      rw [hcl] at hc
      simp at hc
      rcases hc with h1 | h1 | h1 | h1 | h1 | h1 | h1 <;> rw [h1]

/-- C8 witness environment: work-dir omitted, debug off. -/
def c8Env : Env :=
  { parse := { remote := "origin", branch := "main", work_dir := none,
               debug := false, release_type := "minor",
               temp_dir := "/tmp/release_py_x", dir_exists := fun _ => false },
    cfg := none, docfs := ⟨false, false, false, ""⟩, changes_rst := "" }

/-- C8 (witness): on the concrete environment the temp dir is adopted and
its removal registered. -/
theorem temp_workspace_witness :
    parse_args c8Env.parse =
      Except.ok { work_dir := "/tmp/release_py_x", cleanup_registered := true } :=
  (temp_workspace c8Env rfl).1

/-- C9: a successful run performs, exactly once each and in this order:
argument parsing, git clone, make pre-release, bumpversion, git show HEAD,
make doc-clean, make doc, make changes, the doc check and the changelog
check — and check_ci_build is never invoked. -/
theorem main_success_sequence (env : Env) (h : (Release.main env).2 = Except.ok ()) :
    (Release.main env).1 =
      [Event.parseArgsEv,
       Event.procEv ⟨["git", "clone", "--branch", env.parse.branch,
                      env.parse.remote, effWorkDir env.parse], effWorkDir env.parse⟩,
       Event.procEv ⟨["make", "pre-release"], effWorkDir env.parse⟩,
       Event.procEv ⟨[".venv/bin/bumpversion", env.parse.release_type],
                     effWorkDir env.parse⟩,
       Event.procEv ⟨["git", "--no-pager", "show", "HEAD"], effWorkDir env.parse⟩,
       Event.procEv ⟨["make", "doc-clean"], effWorkDir env.parse⟩,
       Event.procEv ⟨["make", "doc"], effWorkDir env.parse⟩,
       Event.procEv ⟨["make", "changes"], effWorkDir env.parse⟩,
       Event.checkDocEv, Event.checkChangelogEv] ∧
    Event.checkCiEv ∉ (Release.main env).1 := by
  cases hp : parse_args env.parse with
  | error e =>
    exfalso
    unfold Release.main at h
    rw [hp] at h
    simp at h
  | ok r =>
    have hwd : r.work_dir = effWorkDir env.parse := parse_args_work_dir_eq env.parse r hp
    cases hd : check_doc_full env.cfg env.docfs with
    | error e =>
      exfalso
      unfold Release.main at h
      rw [hp, hd] at h
      simp at h
    | ok u =>
      cases hcl : check_changelog_full env.cfg env.changes_rst with
      | error e =>
        exfalso
        unfold Release.main at h
        rw [hp, hd, hcl] at h
        simp at h
      | ok u2 =>
        constructor
        · unfold Release.main
          rw [hp, hd, hcl]
          simp [run_in_workspace, argToString, hwd]
        · unfold Release.main
          rw [hp, hd, hcl]
          simp [run_in_workspace, argToString]

/-- C9 witness environment: a run in which every check passes. -/
def c9Env : Env :=
  { parse := { remote := "origin", branch := "main", work_dir := none,
               debug := false, release_type := "minor",
               temp_dir := "/tmp/release_py_a", dir_exists := fun _ => false },
    cfg := some ⟨[("bumpversion", [("current_version", "1.2.3")])]⟩,
    docfs := ⟨true, true, true, "pytest-httpserver 1.2.3 documentation"⟩,
    changes_rst := "1.2.3\n\nsome changes\n" }

/-- C9 (witness): the concrete successful run produces exactly the expected
event sequence with no CI check. -/
theorem main_success_sequence_witness :
    (Release.main c9Env).1 =
      [Event.parseArgsEv,
       Event.procEv ⟨["git", "clone", "--branch", "main", "origin",
                      "/tmp/release_py_a"], "/tmp/release_py_a"⟩,
       Event.procEv ⟨["make", "pre-release"], "/tmp/release_py_a"⟩,
       Event.procEv ⟨[".venv/bin/bumpversion", "minor"], "/tmp/release_py_a"⟩,
       Event.procEv ⟨["git", "--no-pager", "show", "HEAD"], "/tmp/release_py_a"⟩,
       Event.procEv ⟨["make", "doc-clean"], "/tmp/release_py_a"⟩,
       Event.procEv ⟨["make", "doc"], "/tmp/release_py_a"⟩,
       Event.procEv ⟨["make", "changes"], "/tmp/release_py_a"⟩,
       Event.checkDocEv, Event.checkChangelogEv] ∧
    Event.checkCiEv ∉ (Release.main c9Env).1 :=
  main_success_sequence c9Env rfl

/-- C10: when work-dir is supplied explicitly, a successful parse_args never
registers any cleanup of it — debug or not — so a user-supplied workspace is
never scheduled for deletion. -/
theorem user_workdir_no_cleanup (inp : ParseArgsInput) (wd : String)
    (hw : inp.work_dir = some wd) (r : ParseResult)
    (hr : parse_args inp = Except.ok r) :
    r.cleanup_registered = false := by
  unfold parse_args at hr
  rw [hw] at hr
  by_cases he : inp.dir_exists wd <;> by_cases hd : inp.debug <;>
    simp [he, hd] at hr <;> rw [← hr]

/-- C10 witness input: an explicit, not yet existing work dir with debug off. -/
def c10Inp : ParseArgsInput :=
  { remote := "origin", branch := "main", work_dir := some ("/home/user/ws"),
    debug := false, release_type := "major", temp_dir := "/tmp/t",
    dir_exists := fun _ => false }

/-- C10 (witness): on the concrete input the parse result has no cleanup
registered. -/
theorem user_workdir_no_cleanup_witness :
    ({ work_dir := "/home/user/ws", cleanup_registered := false } :
      ParseResult).cleanup_registered = false :=
  user_workdir_no_cleanup c10Inp ("/home/user/ws") rfl _ rfl

end Release
